import Mathlib

/-!
Verification of the site_analyzer core against its specification.

The Python source is shallowly embedded: dataclasses become structures,
Python dictionaries with string keys become functions `String → Option v`,
Python sets become `Finset String`, float scores become `ℚ`, and calls that
can raise become `Option`/`Except` values.  Calls into the external `re`
library are abstracted as oracle parameters (a function giving, for a given
regex source and subject string, the library's answer), since the regex
engine is not part of this repository.
-/

namespace SiteAnalyzer

/-! ### DOM pattern analysis (src/analyzers/dom_patterns.py) -/

/-- Embeds the `DOMPatternMatch` dataclass.  `count` is an `ℕ`: every
construction site in the analyzer sets it to `len(matches)`. -/
structure DOMPatternMatch where
  name : String
  description : String
  severity : String
  «matches» : List String
  count : Nat
  file_source : Option String := none
deriving DecidableEq

/-- Embeds `severity_weights.get(match.severity, 1)` from
`get_security_score`: the weight table with default 1 for unknown keys. -/
def severityWeight (s : String) : Nat :=
  if s = "high" then 10
  else if s = "medium" then 5
  else if s = "info" then 1
  else 1

/-- The `severity_counts` accumulator of `get_security_score`, which is
initialised with exactly the keys high/medium/info. -/
structure SeverityCounts where
  high : Nat
  medium : Nat
  info : Nat
deriving DecidableEq

/-- Embeds `severity_counts[match.severity] += match.count`: Python subscript
assignment on a dict raises `KeyError` for a key that is absent, which the
embedding renders as `none`. -/
def tallyAdd (c : SeverityCounts) (sev : String) (n : Nat) : Option SeverityCounts :=
  if sev = "high" then some { c with high := c.high + n }
  else if sev = "medium" then some { c with medium := c.medium + n }
  else if sev = "info" then some { c with info := c.info + n }
  else none

/-- The for-loop of `get_security_score`: folds total score and severity
tally over the matches, failing (KeyError) at the first match whose severity
is not a key of `severity_counts`. -/
def scoreLoop : List DOMPatternMatch → Nat × SeverityCounts → Option (Nat × SeverityCounts)
  | [], acc => some acc
  | m :: rest, (total, counts) =>
    match tallyAdd counts m.severity m.count with
    | none => none
    | some counts2 => scoreLoop rest (total + severityWeight m.severity * m.count, counts2)

/-- The dictionary returned by `get_security_score`. -/
structure SecurityScore where
  total_score : Nat
  normalized_score : ℚ
  severity_breakdown : SeverityCounts
  total_patterns : Nat
  risk_level : String
deriving DecidableEq

/-- Embeds `DOMPatternAnalyzer._get_risk_level`. -/
def get_risk_level (score : ℚ) : String :=
  if score ≥ 70 then "HIGH"
  else if score ≥ 40 then "MEDIUM"
  else if score ≥ 20 then "LOW"
  else "MINIMAL"

/-- Embeds `DOMPatternAnalyzer.get_security_score`.  Returns `none` when the
Python code would raise `KeyError` (a match with an unknown severity). -/
def get_security_score (ms : List DOMPatternMatch) : Option SecurityScore :=
  match scoreLoop ms (0, ⟨0, 0, 0⟩) with
  | none => none
  | some (total, counts) =>
    let max_possible_score : Nat := ms.length * 10
    let normalized : ℚ :=
      if max_possible_score > 0 then
        min (((total : ℚ) / max ((max_possible_score : Nat) : ℚ) 1) * 100) 100
      else 0
    some { total_score := total
           normalized_score := normalized
           severity_breakdown := counts
           total_patterns := ms.length
           risk_level := get_risk_level normalized }

/-- Rank of the risk buckets, for stating monotonicity of the bucketing. -/
def riskRank (r : String) : Nat :=
  if r = "MINIMAL" then 0
  else if r = "LOW" then 1
  else if r = "MEDIUM" then 2
  else 3

lemma scoreLoop_total (ms : List DOMPatternMatch) :
    ∀ (t : Nat) (c : SeverityCounts),
      (∀ m ∈ ms, m.severity = "high" ∨ m.severity = "medium" ∨ m.severity = "info") →
      ∃ c2, scoreLoop ms (t, c) =
        some (t + (ms.map (fun m => severityWeight m.severity * m.count)).sum, c2) := by
  induction ms with
  | nil => intro t c _; exact ⟨c, by simp [scoreLoop]⟩
  | cons m rest ih =>
    intro t c hsev
    have hm := hsev m (by simp)
    have hrest : ∀ m' ∈ rest, m'.severity = "high" ∨ m'.severity = "medium" ∨ m'.severity = "info" :=
      fun m' hm' => hsev m' (by simp [hm'])
    have htally : ∃ c', tallyAdd c m.severity m.count = some c' := by
      rcases hm with h | h | h <;> simp [tallyAdd, h]
    obtain ⟨c', hc'⟩ := htally
    obtain ⟨c2, hc2⟩ := ih (t + severityWeight m.severity * m.count) c' hrest
    refine ⟨c2, ?_⟩
    simp only [scoreLoop, hc']
    rw [hc2, List.map_cons, List.sum_cons, ← Nat.add_assoc]

lemma scoreLoop_isSome_iff (ms : List DOMPatternMatch) :
    ∀ acc : Nat × SeverityCounts,
      (scoreLoop ms acc).isSome ↔
        ∀ m ∈ ms, m.severity = "high" ∨ m.severity = "medium" ∨ m.severity = "info" := by
  induction ms with
  | nil => intro acc; simp [scoreLoop]
  | cons m rest ih =>
    intro acc
    obtain ⟨t, c⟩ := acc
    by_cases hm : m.severity = "high" ∨ m.severity = "medium" ∨ m.severity = "info"
    · have htally : ∃ c', tallyAdd c m.severity m.count = some c' := by
        rcases hm with h | h | h <;> simp [tallyAdd, h]
      obtain ⟨c', hc'⟩ := htally
      simp only [scoreLoop, hc']
      rw [ih]
      constructor
      · intro h m' hm'
        rcases List.mem_cons.mp hm' with h' | h'
        · subst h'; exact hm
        · exact h m' h'
      · intro h m' hm'
        exact h m' (by simp [hm'])
    · have htally : tallyAdd c m.severity m.count = none := by
        simp only [tallyAdd]
        push_neg at hm
        simp [hm.1, hm.2.1, hm.2.2]
      simp only [scoreLoop, htally, Option.isSome_none]
      constructor
      · intro h; exact absurd h (by simp)
      · intro h; exact absurd (h m (List.mem_cons_self m rest)) hm

/-- C1: when every match severity is high/medium/info, `get_security_score`
returns `total_score` equal to the sum of severity weight times count, and
`normalized_score` equal to `min 100 (100 * total / (10 * #matches))` for a
non-empty match list and `0` for the empty list. -/
theorem C1_security_score (ms : List DOMPatternMatch)
    (hsev : ∀ m ∈ ms, m.severity = "high" ∨ m.severity = "medium" ∨ m.severity = "info") :
    ∃ s, get_security_score ms = some s ∧
      s.total_score = (ms.map (fun m => severityWeight m.severity * m.count)).sum ∧
      (ms = [] → s.normalized_score = 0) ∧
      (ms ≠ [] →
        s.normalized_score = min 100 (100 * (s.total_score : ℚ) / (10 * ms.length))) ∧
      s.risk_level = get_risk_level s.normalized_score := by
  obtain ⟨c2, hc2⟩ := scoreLoop_total ms 0 ⟨0, 0, 0⟩ hsev
  rw [Nat.zero_add] at hc2
  have hs : get_security_score ms =
      some { total_score := (ms.map (fun m => severityWeight m.severity * m.count)).sum
             normalized_score :=
               if ms.length * 10 > 0 then
                 min ((((ms.map (fun m => severityWeight m.severity * m.count)).sum : ℚ) /
                   max ((ms.length * 10 : Nat) : ℚ) 1) * 100) 100
               else 0
             severity_breakdown := c2
             total_patterns := ms.length
             risk_level := get_risk_level
               (if ms.length * 10 > 0 then
                 min ((((ms.map (fun m => severityWeight m.severity * m.count)).sum : ℚ) /
                   max ((ms.length * 10 : Nat) : ℚ) 1) * 100) 100
               else 0) } := by
    simp only [get_security_score, hc2]
  refine ⟨_, hs, rfl, ?_, ?_, rfl⟩
  · intro h
    subst h
    simp
  · intro hne
    have hlen : 1 ≤ ms.length := List.length_pos.mpr hne
    have hpos : 0 < ms.length * 10 := by omega
    dsimp only
    rw [if_pos hpos,
      max_eq_left (by exact_mod_cast (show (1 : Nat) ≤ ms.length * 10 by omega)),
      min_comm]
    congr 1
    push_cast
    ring

/-- The concrete scenario of C1: one high-severity pattern matching twice. -/
def c1Match : DOMPatternMatch :=
  ⟨"html_sink", "Potential XSS sink", "high", ["innerHTML", "innerHTML"], 2, none⟩

theorem C1_security_score_witness :
    (∃ s, get_security_score [c1Match] = some s ∧
      s.total_score = ([c1Match].map (fun m => severityWeight m.severity * m.count)).sum ∧
      ([c1Match] = [] → s.normalized_score = 0) ∧
      ([c1Match] ≠ [] →
        s.normalized_score = min 100 (100 * (s.total_score : ℚ) / (10 * [c1Match].length))) ∧
      s.risk_level = get_risk_level s.normalized_score) ∧
    get_security_score [c1Match] = some ⟨20, 100, ⟨2, 0, 0⟩, 1, "HIGH"⟩ := by
  refine ⟨C1_security_score [c1Match] ?_, ?_⟩
  · intro m hm
    rw [List.mem_singleton] at hm
    subst hm
    left
    rfl
  · have hloop : scoreLoop [c1Match] (0, ⟨0, 0, 0⟩) = some (20, ⟨2, 0, 0⟩) := rfl
    simp only [get_security_score, hloop]
    have hmax : max ((List.length [c1Match] * 10 : Nat) : ℚ) 1 = 10 := by
      norm_num
    norm_num [hmax, get_risk_level]

/-- C8: normalized scores are in [0,100]; the risk bucketing follows the
70/40/20 thresholds; and the bucketing is monotone non-decreasing in the
score under MINIMAL < LOW < MEDIUM < HIGH. -/
theorem C8_normalized_range_and_risk :
    (∀ ms s, get_security_score ms = some s →
      0 ≤ s.normalized_score ∧ s.normalized_score ≤ 100 ∧
        s.risk_level = get_risk_level s.normalized_score) ∧
    (∀ x : ℚ, (70 ≤ x → get_risk_level x = "HIGH") ∧
      (40 ≤ x → x < 70 → get_risk_level x = "MEDIUM") ∧
      (20 ≤ x → x < 40 → get_risk_level x = "LOW") ∧
      (x < 20 → get_risk_level x = "MINIMAL")) ∧
    (∀ x y : ℚ, x ≤ y → riskRank (get_risk_level x) ≤ riskRank (get_risk_level y)) := by
  refine ⟨?_, ?_, ?_⟩
  · intro ms s hs
    rcases hloop : scoreLoop ms (0, ⟨0, 0, 0⟩) with _ | ⟨t, c⟩ <;>
      simp only [get_security_score, hloop] at hs
    · exact absurd hs (by simp)
    · obtain rfl : _ = s := Option.some_injective _ hs
      refine ⟨?_, ?_, rfl⟩
      · dsimp only
        split_ifs
        · refine le_min (mul_nonneg (div_nonneg ?_ ?_) (by norm_num)) (by norm_num)
          · exact_mod_cast Nat.zero_le t
          · exact le_trans (by norm_num) (le_max_right _ 1)
        · norm_num
      · dsimp only
        split_ifs
        · exact min_le_right _ _
        · norm_num
  · intro x
    refine ⟨?_, ?_, ?_, ?_⟩ <;> intros <;> simp only [get_risk_level] <;> split_ifs <;>
      first | rfl | linarith
  · intro x y hxy
    simp only [get_risk_level]
    split_ifs <;> first | decide | linarith

theorem C8_normalized_range_and_risk_witness :
    get_risk_level 75 = "HIGH" ∧
      riskRank (get_risk_level 30) ≤ riskRank (get_risk_level 85) :=
  ⟨(C8_normalized_range_and_risk.2.1 75).1 (by norm_num),
    C8_normalized_range_and_risk.2.2 30 85 (by norm_num)⟩

/-- C10: `get_security_score` succeeds exactly when all severities are
high/medium/info (otherwise the tally subscript raises KeyError), while the
weight lookup alone would have fallen back to the default weight 1. -/
theorem C10_partial_on_unknown_severity :
    (∀ ms : List DOMPatternMatch,
      (get_security_score ms).isSome ↔
        ∀ m ∈ ms, m.severity = "high" ∨ m.severity = "medium" ∨ m.severity = "info") ∧
    (∀ s : String, s ≠ "high" → s ≠ "medium" → s ≠ "info" → severityWeight s = 1) := by
  constructor
  · intro ms
    rw [← scoreLoop_isSome_iff ms (0, ⟨0, 0, 0⟩)]
    rcases hloop : scoreLoop ms (0, ⟨0, 0, 0⟩) with _ | ⟨t, c⟩ <;>
      simp [get_security_score, hloop]
  · intro s h1 h2 h3
    simp [severityWeight, h1, h2, h3]

/-- A match whose severity is outside the tally's key set. -/
def c10Match : DOMPatternMatch := ⟨"x", "d", "critical", ["m"], 1, none⟩

theorem C10_partial_on_unknown_severity_witness :
    get_security_score [c10Match] = none ∧ severityWeight ("critical") = 1 := by
  refine ⟨?_, C10_partial_on_unknown_severity.2 "critical" (by decide) (by decide) (by decide)⟩
  have h := (C10_partial_on_unknown_severity.1 [c10Match])
  cases hc : get_security_score [c10Match] with
  | none => exact hc
  | some s =>
    exfalso
    have hall := h.mp (by simp [hc])
    have h2 := hall c10Match (by simp)
    simp [c10Match] at h2

/-! ### analyze_content and malformed pattern definitions
(src/analyzers/dom_patterns.py, `DOMPatternAnalyzer.analyze_content`) -/

/-- A pattern definition as the Python dict it is: each expected key may be
absent (`none`). -/
structure RawPattern where
  name : Option String
  description : Option String
  regex : Option String
  severity : Option String

/-- The Python exception that can escape `analyze_content`: a `KeyError`
from subscripting a pattern dict on a missing key.  (`re.error` is caught
inside the loop and so never escapes.) -/
inductive PyErr
  | keyError
deriving DecidableEq

/-- Embeds `pattern['k']`: raises `KeyError` when the key is absent. -/
def dictKey : Option String → Except PyErr String
  | some v => Except.ok v
  | none => Except.error PyErr.keyError

/-- The loop of `DOMPatternAnalyzer.analyze_content`, parameterised by an
oracle for `re.findall(regex, content, re.IGNORECASE | re.MULTILINE)`; an
`Except.error ()` from the oracle stands for `re.error`, which the
`except re.error` clause catches (the definition is skipped).  A `KeyError`
raised by a subscript is not `re.error` and propagates. -/
def analyzeContentLoop (findall : String → String → Except Unit (List String))
    (content : String) (source_file : Option String) :
    List RawPattern → Except PyErr (List DOMPatternMatch)
  | [] => Except.ok []
  | p :: rest =>
    match dictKey p.regex with
    | Except.error e => Except.error e
    | Except.ok rx =>
      match findall rx content with
      | Except.error _ => analyzeContentLoop findall content source_file rest
      | Except.ok regex_matches =>
        if regex_matches.isEmpty then
          analyzeContentLoop findall content source_file rest
        else
          match dictKey p.name, dictKey p.description, dictKey p.severity with
          | Except.ok n, Except.ok d, Except.ok sv =>
            match analyzeContentLoop findall content source_file rest with
            | Except.ok restResults =>
              Except.ok (⟨n, d, sv, regex_matches, regex_matches.length, source_file⟩ :: restResults)
            | Except.error e => Except.error e
          | Except.error e, _, _ => Except.error e
          | _, Except.error e, _ => Except.error e
          | _, _, Except.error e => Except.error e

/-- Embeds `DOMPatternAnalyzer.analyze_content` over the loaded patterns. -/
def analyze_content (findall : String → String → Except Unit (List String))
    (patterns : List RawPattern) (content : String) (source_file : Option String) :
    Except PyErr (List DOMPatternMatch) :=
  analyzeContentLoop findall content source_file patterns

/-- What one well-formed definition contributes: skipped on `re.error` or
when nothing matches, otherwise a single `DOMPatternMatch` carrying all
matched substrings and their count. -/
def patternResult (findall : String → String → Except Unit (List String))
    (content : String) (source_file : Option String) (p : RawPattern) :
    Option DOMPatternMatch :=
  match p.regex with
  | none => none
  | some rx =>
    match findall rx content with
    | Except.error _ => none
    | Except.ok regex_matches =>
      if regex_matches.isEmpty then none
      else some ⟨p.name.getD (""), p.description.getD (""), p.severity.getD (""),
        regex_matches, regex_matches.length, source_file⟩

/-- C6 counterexample: a pattern definition that is ill-formed otherwise
than by a non-compiling regex — here one missing its `regex` key — makes
`analyze_content` raise `KeyError` instead of being skipped, refuting
"analyze_content never raises". -/
theorem C6_counterexample :
    analyze_content (fun _ _ => Except.ok ["x"])
      [⟨some ("n"), some ("d"), none, some ("high")⟩] "content" none =
      Except.error PyErr.keyError := rfl

/-- C6 amended: for pattern definitions that carry all four keys,
`analyze_content` never raises; a definition whose regex does not compile
(`re.error`) is skipped with a diagnostic and analysis continues, and each
definition with at least one match contributes exactly one
`DOMPatternMatch` with all matched substrings and their count. -/
theorem C6_no_raise_on_wellformed (findall : String → String → Except Unit (List String))
    (patterns : List RawPattern) (content : String) (source_file : Option String)
    (hkeys : ∀ p ∈ patterns,
      p.name.isSome ∧ p.description.isSome ∧ p.regex.isSome ∧ p.severity.isSome) :
    analyze_content findall patterns content source_file =
      Except.ok (patterns.filterMap (patternResult findall content source_file)) := by
  induction patterns with
  | nil => rfl
  | cons p rest ih =>
    have hp := hkeys p (by simp)
    obtain ⟨n, hn⟩ := Option.isSome_iff_exists.mp hp.1
    obtain ⟨d, hd⟩ := Option.isSome_iff_exists.mp hp.2.1
    obtain ⟨rx, hrx⟩ := Option.isSome_iff_exists.mp hp.2.2.1
    obtain ⟨sv, hsv⟩ := Option.isSome_iff_exists.mp hp.2.2.2
    have hrest := ih (fun q hq => hkeys q (by simp [hq]))
    simp only [analyze_content] at hrest ⊢
    cases hfa : findall rx content with
    | error e =>
      simp [analyzeContentLoop, dictKey, hrx, hfa, hrest, List.filterMap_cons, patternResult]
    | ok regex_matches =>
      by_cases hemp : regex_matches.isEmpty
      · simp [analyzeContentLoop, dictKey, hrx, hfa, hemp, hrest, List.filterMap_cons,
          patternResult]
      · simp [analyzeContentLoop, dictKey, hn, hd, hsv, hrx, hfa, hemp, hrest,
          List.filterMap_cons, patternResult]

/-- A concrete well-formed pattern definition for the C6 witness. -/
def c6PatternOk : RawPattern :=
  ⟨some ("html_sink"), some ("Potential XSS sink"), some ("(innerHTML)\\s*="), some ("high")⟩

/-- A concrete findall oracle for the C6 witness: one matched substring. -/
def c6Findall : String → String → Except Unit (List String) :=
  fun _ _ => Except.ok ["innerHTML"]

theorem C6_no_raise_on_wellformed_witness :
    analyze_content c6Findall [c6PatternOk] "x.innerHTML = y" none =
      Except.ok ([c6PatternOk].filterMap (patternResult c6Findall ("x.innerHTML = y") none)) ∧
    analyze_content c6Findall [c6PatternOk] "x.innerHTML = y" none =
      Except.ok [⟨"html_sink", "Potential XSS sink", "high", ["innerHTML"], 1, none⟩] :=
  ⟨C6_no_raise_on_wellformed c6Findall [c6PatternOk] "x.innerHTML = y" none
      (by intro p hp; rw [List.mem_singleton] at hp; subst hp; exact ⟨rfl, rfl, rfl, rfl⟩),
    rfl⟩

/-! ### Framework detection (src/plugins/base.py, react.py, angular.py,
vue.py, webpack.py, factory.py) -/

/-- The pieces of the `js_results` mapping the plugins consume: the
`script_sources` and `window_properties` entries, plus the `str()` rendering
of the whole mapping that some detectors search as text. -/
structure JsResults where
  script_sources : List String
  window_properties : List String
  strForm : String
deriving DecidableEq

/-- Oracle for the `re` library calls the plugins make: `search` tells
whether `re.search(pattern, content)` matched, `findall` gives
`re.findall(pattern, content)`, `capture` gives the first capture group of
`re.search(pattern, content, re.IGNORECASE)` when it matched. -/
structure ReOracle where
  search : String → String → Bool
  findall : String → String → List String
  capture : String → String → Option String

/-- Embeds the Python substring test `needle in hay` on the character
lists. -/
def containsSub : List Char → List Char → Bool
  | needle, [] => needle.isEmpty
  | needle, c :: rest => needle.isPrefixOf (c :: rest) || containsSub needle rest

/-- Embeds `needle in hay` for strings. -/
def strContains (hay needle : String) : Bool := containsSub needle.toList hay.toList

/-- Embeds Python `s.lower()` (ASCII case is all the detectors rely on). -/
def strLower (s : String) : String := String.mk (s.toList.map Char.toLower)

/-- Embeds the `FrameworkDetection` dataclass (post-init lists defaulted). -/
structure FrameworkDetection where
  name : String
  version : Option String
  confidence : ℚ
  indicators : List String
  files : List String
deriving DecidableEq

/-- Embeds `BaseFrameworkPlugin._check_js_globals`. -/
def check_js_globals (js : JsResults) (globals_to_check : List String) : List String :=
  globals_to_check.filter (fun g => js.window_properties.contains g)

/-- Embeds `BaseFrameworkPlugin._extract_version`: the first capture group
of the first version pattern that matches, else nothing. -/
def extract_version (o : ReOracle) (content : String) : List String → Option String
  | [] => none
  | p :: rest =>
    match o.capture p content with
    | some v => some v
    | none => extract_version o content rest

/-! #### ReactPlugin -/

def reactGlobals : List String :=
  ["React", "__REACT_DEVTOOLS_GLOBAL_HOOK__", "__REACT_HOT_LOADER__"]

def reduxGlobals : List String := ["__REDUX_DEVTOOLS_EXTENSION__", "Redux"]

def jsxPatterns : List String :=
  ["<[A-Z][a-zA-Z0-9]*[^>]*>", "className\\s*=", "onClick\\s*=\\s*\\\x7b"]

def reactVersionPatterns : List String :=
  ["react[\"\\']?\\s*:\\s*[\"\\']([0-9]+\\.[0-9]+\\.[0-9]+)",
   "React\\s+([0-9]+\\.[0-9]+\\.[0-9]+)",
   "\"react\":\\s*\"([^\"]+)\""]

/-- The script sources the React plugin counts (`'react' in src.lower()`). -/
def reactScriptHits (sources : List String) : List String :=
  sources.filter (fun src => strContains (strLower src) ("react"))

/-- Accumulated confidence of `ReactPlugin.detect` before gate and clamp:
one term per `confidence +=` statement of the source, in source order. -/
def reactRawConfidence (o : ReOracle) (content : String) (js : JsResults) : ℚ :=
  0.3 * (reactScriptHits js.script_sources).length
    + (if check_js_globals js reactGlobals ≠ [] then 0.4 else 0)
    + (if strContains content ("React.createElement") ||
          strContains content ("react.createElement") then 0.3 else 0)
    + 0.2 * (jsxPatterns.filter (fun p => o.search p content)).length
    + (if strContains content ("__NEXT_DATA__") ||
          strContains js.strForm ("__NEXT_DATA__") then 0.5 else 0)
    + (if strContains content ("/static/js/") &&
          strContains (strLower content) ("react") then 0.3 else 0)
    + (if strContains (strLower content) ("react-router") ||
          strContains js.strForm ("ReactRouter") then 0.2 else 0)
    + (if check_js_globals js reduxGlobals ≠ [] then 0.2 else 0)

/-- Embeds `ReactPlugin.detect`. -/
def reactDetect (o : ReOracle) (content : String) (js : JsResults) (url : String) :
    Option FrameworkDetection :=
  let script_hits := reactScriptHits js.script_sources
  let found_globals := check_js_globals js reactGlobals
  let next_found := strContains content ("__NEXT_DATA__") ||
    strContains js.strForm ("__NEXT_DATA__")
  let confidence := reactRawConfidence o content js
  let indicators :=
    script_hits.map (fun s => "React script: " ++ s)
    ++ found_globals.map (fun g => "React global: " ++ g)
    ++ (if strContains content ("React.createElement") ||
          strContains content ("react.createElement")
        then ["React.createElement found"] else [])
    ++ (jsxPatterns.filter (fun p => o.search p content)).map (fun p => "JSX pattern: " ++ p)
    ++ (if next_found then ["Next.js detected (__NEXT_DATA__)"] else [])
    ++ (if strContains content ("/static/js/") && strContains (strLower content) ("react")
        then ["Create React App structure detected"] else [])
    ++ (if strContains (strLower content) ("react-router") ||
          strContains js.strForm ("ReactRouter")
        then ["React Router detected"] else [])
    ++ (check_js_globals js reduxGlobals).map (fun g => "Redux: " ++ g)
  let files := script_hits
    ++ (if next_found
        then js.script_sources.filter (fun f => strContains (strLower f) ("next")) else [])
  let version := extract_version o content reactVersionPatterns
  if confidence > 0.3 then
    some ⟨"React", version, min confidence 1, indicators, files⟩
  else none

/-! #### AngularPlugin -/

def angularGlobals : List String :=
  ["ng", "angular", "__NG_DEVTOOLS_GLOBAL_HOOK__", "getAllAngularRootElements"]

def angularPatterns : List String :=
  ["ng-[a-z]+\\s*=", "\\*ng[A-Z][a-zA-Z]*", "\\[ng[A-Z][a-zA-Z]*\\]",
   "\\(ng[A-Z][a-zA-Z]*\\)", "\x7b\x7b[^\x7d]+\x7d\x7d", "ng:///"]

def angularVersionPatterns : List String :=
  ["@angular/core[\"\\']?\\s*:\\s*[\"\\']([0-9]+\\.[0-9]+\\.[0-9]+)",
   "Angular\\s+([0-9]+\\.[0-9]+\\.[0-9]+)",
   "\"@angular/core\":\\s*\"([^\"]+)\""]

/-- The script sources the Angular plugin counts. -/
def angularScriptHits (sources : List String) : List String :=
  sources.filter (fun src =>
    (["angular", "ng-", "@angular"].any (fun a => strContains (strLower src) a)))

/-- Accumulated confidence of `AngularPlugin.detect` before gate/clamp. -/
def angularRawConfidence (o : ReOracle) (content : String) (js : JsResults) : ℚ :=
  0.4 * (angularScriptHits js.script_sources).length
    + (if check_js_globals js angularGlobals ≠ [] then 0.5 else 0)
    + 0.3 * (angularPatterns.filter (fun p => ¬(o.findall p content).isEmpty)).length
    + (if strContains (strLower content) ("router-outlet") ||
          strContains content ("routerLink") then 0.3 else 0)
    + (if strContains content ("mat-") || strContains content ("@angular/material")
        then 0.2 else 0)
    + (if js.script_sources.contains ("main.js") && js.script_sources.contains ("polyfills.js")
        then 0.3 else 0)
    + (if strContains (strLower content) ("angular.js") ||
          strContains (strLower content) ("angularjs") then 0.4 else 0)
    + (if strContains content ("__ANGULAR_UNIVERSAL__") || strContains content ("ng-state")
        then 0.2 else 0)

/-- Embeds `AngularPlugin.detect`. -/
def angularDetect (o : ReOracle) (content : String) (js : JsResults) (url : String) :
    Option FrameworkDetection :=
  let script_hits := angularScriptHits js.script_sources
  let found_globals := check_js_globals js angularGlobals
  let pattern_hits := angularPatterns.filter (fun p => ¬(o.findall p content).isEmpty)
  let confidence := angularRawConfidence o content js
  let indicators :=
    script_hits.map (fun s => "Angular script: " ++ s)
    ++ found_globals.map (fun g => "Angular global: " ++ g)
    ++ pattern_hits.map (fun p =>
        "Angular pattern: " ++ p ++ " (" ++ toString (o.findall p content).length ++ " matches)")
    ++ (if strContains (strLower content) ("router-outlet") ||
          strContains content ("routerLink") then ["Angular Router detected"] else [])
    ++ (if strContains content ("mat-") || strContains content ("@angular/material")
        then ["Angular Material detected"] else [])
    ++ (if js.script_sources.contains ("main.js") && js.script_sources.contains ("polyfills.js")
        then ["Angular CLI structure detected"] else [])
    ++ (if strContains (strLower content) ("angular.js") ||
          strContains (strLower content) ("angularjs")
        then ["AngularJS (legacy) detected"] else [])
    ++ (if strContains content ("__ANGULAR_UNIVERSAL__") || strContains content ("ng-state")
        then ["Angular Universal (SSR) detected"] else [])
  let version := extract_version o content angularVersionPatterns
  if confidence > 0.3 then
    some ⟨"Angular", version, min confidence 1, indicators, script_hits⟩
  else none

/-! #### VuePlugin -/

def vueGlobals : List String :=
  ["Vue", "__VUE__", "__VUE_DEVTOOLS_GLOBAL_HOOK__", "__VUE_OPTIONS_API__"]

def vuePatterns : List String :=
  ["v-[a-z]+\\s*=", "@[a-z]+\\s*=", ":[a-z]+\\s*=", "\x7b\x7b[^\x7d]+\x7d\x7d",
   "<template[^>]*>"]

def vueCliFiles : List String := ["app.js", "vendor.js", "chunk-vendors.js"]

def vueVersionPatterns : List String :=
  ["vue[\"\\']?\\s*:\\s*[\"\\']([0-9]+\\.[0-9]+\\.[0-9]+)",
   "Vue\\s+([0-9]+\\.[0-9]+\\.[0-9]+)",
   "\"vue\":\\s*\"([^\"]+)\""]

/-- The script sources the Vue plugin counts. -/
def vueScriptHits (sources : List String) : List String :=
  sources.filter (fun src => strContains (strLower src) ("vue"))

/-- The Vue CLI bundle files found among the script sources. -/
def vueFoundCliFiles (sources : List String) : List String :=
  sources.filter (fun f => vueCliFiles.any (fun cli => strContains f cli))

/-- Accumulated confidence of `VuePlugin.detect` before gate/clamp. -/
def vueRawConfidence (o : ReOracle) (content : String) (js : JsResults) : ℚ :=
  0.4 * (vueScriptHits js.script_sources).length
    + (if check_js_globals js vueGlobals ≠ [] then 0.5 else 0)
    + 0.3 * (vuePatterns.filter (fun p => ¬(o.findall p content).isEmpty)).length
    + (if strContains (strLower content) ("vue-router") ||
          strContains (strLower content) ("router-view") then 0.3 else 0)
    + (if strContains (strLower content) ("vuex") || strContains content ("$store")
        then 0.2 else 0)
    + (if strContains content ("__NUXT__") || strContains (strLower content) ("nuxt")
        then 0.4 else 0)
    + (if vueFoundCliFiles js.script_sources ≠ [] then 0.3 else 0)
    + (if strContains content ("createApp") || strContains content ("Vue.createApp")
        then 0.3 else 0)
    + (if strContains content ("new Vue(") then 0.3 else 0)

/-- Embeds `VuePlugin.detect`. -/
def vueDetect (o : ReOracle) (content : String) (js : JsResults) (url : String) :
    Option FrameworkDetection :=
  let script_hits := vueScriptHits js.script_sources
  let found_globals := check_js_globals js vueGlobals
  let pattern_hits := vuePatterns.filter (fun p => ¬(o.findall p content).isEmpty)
  let found_cli_files := vueFoundCliFiles js.script_sources
  let confidence := vueRawConfidence o content js
  let indicators :=
    script_hits.map (fun s => "Vue script: " ++ s)
    ++ found_globals.map (fun g => "Vue global: " ++ g)
    ++ pattern_hits.map (fun p =>
        "Vue pattern: " ++ p ++ " (" ++ toString (o.findall p content).length ++ " matches)")
    ++ (if strContains (strLower content) ("vue-router") ||
          strContains (strLower content) ("router-view") then ["Vue Router detected"] else [])
    ++ (if strContains (strLower content) ("vuex") || strContains content ("$store")
        then ["Vuex detected"] else [])
    ++ (if strContains content ("__NUXT__") || strContains (strLower content) ("nuxt")
        then ["Nuxt.js detected"] else [])
    ++ (if found_cli_files ≠ []
        then ["Vue CLI structure detected: " ++ toString found_cli_files] else [])
    ++ (if strContains content ("createApp") || strContains content ("Vue.createApp")
        then ["Vue 3 composition API detected"] else [])
    ++ (if strContains content ("new Vue(") then ["Vue 2 instance detected"] else [])
  let version := extract_version o content vueVersionPatterns
  if confidence > 0.3 then
    some ⟨"Vue.js", version, min confidence 1, indicators, script_hits⟩
  else none

/-! #### WebpackPlugin -/

def webpackPatterns : List String :=
  ["__webpack_require__", "webpackJsonp", "__webpack_exports__", "__webpack_modules__",
   "webpack_require\\.r", "webpack_require\\.d",
   "/\\*\\* webpack version: ([0-9]+\\.[0-9]+\\.[0-9]+) \\*/"]

def webpackFilePatterns : List String :=
  ["[a-f0-9]\x7b8,\x7d\\.js", "chunk\\.[a-f0-9]+\\.js", "vendor\\.[a-f0-9]+\\.js",
   "runtime\\.[a-f0-9]+\\.js"]

/-- The script sources the Webpack plugin counts. -/
def webpackScriptHits (sources : List String) : List String :=
  sources.filter (fun src =>
    (["webpack", "chunk", "bundle"].any (fun w => strContains (strLower src) w)))

/-- The version assignment made inside the webpack pattern loop: the last
pattern that both matched and contains the text `webpack version:`. -/
def webpackVersion (o : ReOracle) (content : String) : Option String :=
  webpackPatterns.foldl (fun v p =>
    let ms := o.findall p content
    if ¬ms.isEmpty && strContains p ("webpack version:") then ms.head? else v) none

/-- Accumulated confidence of `WebpackPlugin.detect` before gate/clamp. -/
def webpackRawConfidence (o : ReOracle) (content : String) (js : JsResults) : ℚ :=
  0.3 * (webpackScriptHits js.script_sources).length
    + 0.4 * (webpackPatterns.filter (fun p => ¬(o.findall p content).isEmpty)).length
    + (if strContains content ("webpackChunkName") then 0.3 else 0)
    + (if strContains content ("__webpack_hmr") || strContains content ("webpackHotUpdate")
        then 0.2 else 0)
    + 0.2 * (webpackFilePatterns.filter (fun p => ¬(o.findall p content).isEmpty)).length
    + (if strContains content ("webpack-dev-server") ||
          strContains content ("__webpack_dev_server__") then 0.2 else 0)
    + (if strContains content ("//# sourceMappingURL=") then 0.1 else 0)

/-- Embeds `WebpackPlugin.detect`. -/
def webpackDetect (o : ReOracle) (content : String) (js : JsResults) (url : String) :
    Option FrameworkDetection :=
  let script_hits := webpackScriptHits js.script_sources
  let pattern_hits := webpackPatterns.filter (fun p => ¬(o.findall p content).isEmpty)
  let file_pattern_hits := webpackFilePatterns.filter (fun p => ¬(o.findall p content).isEmpty)
  let confidence := webpackRawConfidence o content js
  let indicators :=
    script_hits.map (fun s => "Webpack file: " ++ s)
    ++ pattern_hits.map (fun p => "Webpack pattern: " ++ p)
    ++ (if strContains content ("webpackChunkName")
        then ["Webpack dynamic imports detected"] else [])
    ++ (if strContains content ("__webpack_hmr") || strContains content ("webpackHotUpdate")
        then ["Webpack HMR detected"] else [])
    ++ file_pattern_hits.map (fun p =>
        "Webpack file pattern: " ++ p ++ " (" ++ toString (o.findall p content).length ++ " files)")
    ++ (if strContains content ("webpack-dev-server") ||
          strContains content ("__webpack_dev_server__")
        then ["Webpack Dev Server detected"] else [])
    ++ (if strContains content ("//# sourceMappingURL=")
        then ["Source maps detected (likely Webpack)"] else [])
  let version := webpackVersion o content
  if confidence > 0.3 then
    some ⟨"Webpack", version, min confidence 1, indicators, script_hits⟩
  else none

/-! #### FrameworkDetectionEngine -/

/-- A registry entry as `detect_frameworks` sees it: a callable that may
raise (`Except.error`) or return no detection (`none`). -/
def PluginFun : Type :=
  String → JsResults → String → Except Unit (Option FrameworkDetection)

/-- Descending-by-confidence order used by
`detections.sort(key=lambda x: x.confidence, reverse=True)`. -/
def confGE (a b : FrameworkDetection) : Prop := b.confidence ≤ a.confidence

instance : DecidableRel confGE := fun a b =>
  inferInstanceAs (Decidable (b.confidence ≤ a.confidence))

instance : IsTotal FrameworkDetection confGE :=
  ⟨fun a b => le_total b.confidence a.confidence⟩

instance : IsTrans FrameworkDetection confGE :=
  ⟨fun _ _ _ h1 h2 => le_trans h2 h1⟩

/-- Embeds `FrameworkDetectionEngine.detect_frameworks`: run every plugin,
isolating per-plugin exceptions (caught with a diagnostic), collect the
returned detections in registry order, then stable-sort them by confidence
descending (Python's `list.sort` is stable; `List.insertionSort` inserts
after earlier equal keys and is therefore the matching stable sort). -/
def detect_frameworks (plugins : List PluginFun) (content : String) (js : JsResults)
    (url : String) : List FrameworkDetection :=
  List.insertionSort confGE
    (plugins.filterMap (fun p =>
      match p content js url with
      | Except.error _ => none
      | Except.ok od => od))

/-- The fixed registry built by `FrameworkDetectionEngine.__init__`. -/
def enginePlugins (o : ReOracle) : List PluginFun :=
  [fun c js u => Except.ok (reactDetect o c js u),
   fun c js u => Except.ok (angularDetect o c js u),
   fun c js u => Except.ok (vueDetect o c js u),
   fun c js u => Except.ok (webpackDetect o c js u)]

lemma reactRawConfidence_nonneg (o : ReOracle) (content : String) (js : JsResults) :
    0 ≤ reactRawConfidence o content js := by
  unfold reactRawConfidence
  repeat' apply add_nonneg
  all_goals first
    | positivity
    | (split <;> norm_num)

lemma angularRawConfidence_nonneg (o : ReOracle) (content : String) (js : JsResults) :
    0 ≤ angularRawConfidence o content js := by
  unfold angularRawConfidence
  repeat' apply add_nonneg
  all_goals first
    | positivity
    | (split <;> norm_num)

lemma vueRawConfidence_nonneg (o : ReOracle) (content : String) (js : JsResults) :
    0 ≤ vueRawConfidence o content js := by
  unfold vueRawConfidence
  repeat' apply add_nonneg
  all_goals first
    | positivity
    | (split <;> norm_num)

lemma webpackRawConfidence_nonneg (o : ReOracle) (content : String) (js : JsResults) :
    0 ≤ webpackRawConfidence o content js := by
  unfold webpackRawConfidence
  repeat' apply add_nonneg
  all_goals first
    | positivity
    | (split <;> norm_num)

/-- C3: each of the four detectors returns a detection exactly when its
accumulated confidence strictly exceeds 0.3, every returned detection's
confidence is clamped into [0,1], and `detect_frameworks` returns a
sequence sorted descending by confidence. -/
theorem C3_threshold_clamp_sorted :
    (∀ o content js url,
      ((reactDetect o content js url).isSome ↔ 0.3 < reactRawConfidence o content js) ∧
      ∀ d, reactDetect o content js url = some d → 0 ≤ d.confidence ∧ d.confidence ≤ 1) ∧
    (∀ o content js url,
      ((angularDetect o content js url).isSome ↔ 0.3 < angularRawConfidence o content js) ∧
      ∀ d, angularDetect o content js url = some d → 0 ≤ d.confidence ∧ d.confidence ≤ 1) ∧
    (∀ o content js url,
      ((vueDetect o content js url).isSome ↔ 0.3 < vueRawConfidence o content js) ∧
      ∀ d, vueDetect o content js url = some d → 0 ≤ d.confidence ∧ d.confidence ≤ 1) ∧
    (∀ o content js url,
      ((webpackDetect o content js url).isSome ↔ 0.3 < webpackRawConfidence o content js) ∧
      ∀ d, webpackDetect o content js url = some d → 0 ≤ d.confidence ∧ d.confidence ≤ 1) ∧
    (∀ plugins content js url,
      List.Sorted confGE (detect_frameworks plugins content js url)) := by
  refine ⟨?_, ?_, ?_, ?_, ?_⟩
  · intro o content js url
    by_cases h : 0.3 < reactRawConfidence o content js
    · refine ⟨by simp only [reactDetect]; rw [if_pos h]; simp [h], ?_⟩
      intro d hd
      simp only [reactDetect] at hd
      rw [if_pos h] at hd
      obtain rfl : _ = d := Option.some_injective _ hd
      exact ⟨le_min (reactRawConfidence_nonneg o content js) (by norm_num),
        min_le_right _ _⟩
    · refine ⟨by simp only [reactDetect]; rw [if_neg h]; simp [h], ?_⟩
      intro d hd
      simp only [reactDetect] at hd
      rw [if_neg h] at hd
      exact absurd hd (by simp)
  · intro o content js url
    by_cases h : 0.3 < angularRawConfidence o content js
    · refine ⟨by simp only [angularDetect]; rw [if_pos h]; simp [h], ?_⟩
      intro d hd
      simp only [angularDetect] at hd
      rw [if_pos h] at hd
      obtain rfl : _ = d := Option.some_injective _ hd
      exact ⟨le_min (angularRawConfidence_nonneg o content js) (by norm_num),
        min_le_right _ _⟩
    · refine ⟨by simp only [angularDetect]; rw [if_neg h]; simp [h], ?_⟩
      intro d hd
      simp only [angularDetect] at hd
      rw [if_neg h] at hd
      exact absurd hd (by simp)
  · intro o content js url
    by_cases h : 0.3 < vueRawConfidence o content js
    · refine ⟨by simp only [vueDetect]; rw [if_pos h]; simp [h], ?_⟩
      intro d hd
      simp only [vueDetect] at hd
      rw [if_pos h] at hd
      obtain rfl : _ = d := Option.some_injective _ hd
      exact ⟨le_min (vueRawConfidence_nonneg o content js) (by norm_num),
        min_le_right _ _⟩
    · refine ⟨by simp only [vueDetect]; rw [if_neg h]; simp [h], ?_⟩
      intro d hd
      simp only [vueDetect] at hd
      rw [if_neg h] at hd
      exact absurd hd (by simp)
  · intro o content js url
    by_cases h : 0.3 < webpackRawConfidence o content js
    · refine ⟨by simp only [webpackDetect]; rw [if_pos h]; simp [h], ?_⟩
      intro d hd
      simp only [webpackDetect] at hd
      rw [if_pos h] at hd
      obtain rfl : _ = d := Option.some_injective _ hd
      exact ⟨le_min (webpackRawConfidence_nonneg o content js) (by norm_num),
        min_le_right _ _⟩
    · refine ⟨by simp only [webpackDetect]; rw [if_neg h]; simp [h], ?_⟩
      intro d hd
      simp only [webpackDetect] at hd
      rw [if_neg h] at hd
      exact absurd hd (by simp)
  · intro plugins content js url
    exact List.sorted_insertionSort confGE _

/-- C7: a detector that raises contributes nothing and does not abort the
others: removing it from the registry leaves the result unchanged. -/
theorem C7_detector_isolation (L1 L2 : List PluginFun) (p : PluginFun)
    (content : String) (js : JsResults) (url : String)
    (hp : p content js url = Except.error ()) :
    detect_frameworks (L1 ++ p :: L2) content js url =
      detect_frameworks (L1 ++ L2) content js url := by
  simp only [detect_frameworks, List.filterMap_append, List.filterMap_cons, hp]

/-- A plugin that always raises, for the C7 witness. -/
def c7BadPlugin : PluginFun := fun _ _ _ => Except.error ()

/-- A plugin returning a fixed detection. -/
def c7GoodPlugin : PluginFun :=
  fun _ _ _ => Except.ok (some ⟨"React", none, 1, [], []⟩)

/-- Empty script results, for concrete engine runs. -/
def js0 : JsResults := ⟨[], [], ""⟩

theorem C7_detector_isolation_witness :
    detect_frameworks [c7GoodPlugin, c7BadPlugin] "" js0 "" =
      detect_frameworks [c7GoodPlugin] "" js0 "" :=
  C7_detector_isolation [c7GoodPlugin] [] c7BadPlugin "" js0 "" rfl

/-- Two plugins reporting distinct detections with equal confidence. -/
def c9PluginA : PluginFun := fun _ _ _ => Except.ok (some ⟨"A", none, 1, [], []⟩)

def c9PluginB : PluginFun := fun _ _ _ => Except.ok (some ⟨"B", none, 1, [], []⟩)

/-- C9 counterexample: with two detectors reporting equal confidence, the
stable sort keeps registry order, so permuting the registry changes the
output sequence — refuting order-independence in the equal-confidence
case. -/
theorem C9_counterexample :
    detect_frameworks [c9PluginA, c9PluginB] "" js0 "" ≠
      detect_frameworks [c9PluginB, c9PluginA] "" js0 "" := by
  have hA : detect_frameworks [c9PluginA, c9PluginB] "" js0 "" =
      [⟨"A", none, 1, [], []⟩, ⟨"B", none, 1, [], []⟩] := by
    simp [detect_frameworks, c9PluginA, c9PluginB, List.insertionSort,
      List.orderedInsert, confGE]
  have hB : detect_frameworks [c9PluginB, c9PluginA] "" js0 "" =
      [⟨"B", none, 1, [], []⟩, ⟨"A", none, 1, [], []⟩] := by
    simp [detect_frameworks, c9PluginA, c9PluginB, List.insertionSort,
      List.orderedInsert, confGE]
  rw [hA, hB]
  simp

/-- Strictly-descending comparison, used to recover uniqueness of the
sorted output when confidences are pairwise distinct. -/
def confGT (a b : FrameworkDetection) : Prop := b.confidence < a.confidence

instance : IsAntisymm FrameworkDetection confGT :=
  ⟨fun _ _ h1 h2 => absurd h2 (lt_asymm h1)⟩

/-- C9 amended: permuting the detector registry permutes nothing observable
except possibly the relative order of equal-confidence detections: the two
outputs are permutations of each other, and are equal whenever the returned
confidences are pairwise distinct. -/
theorem C9_order_permutation (P1 P2 : List PluginFun) (content : String)
    (js : JsResults) (url : String) (hperm : P1.Perm P2) :
    (detect_frameworks P1 content js url).Perm (detect_frameworks P2 content js url) ∧
    ((detect_frameworks P1 content js url).Pairwise
        (fun a b => a.confidence ≠ b.confidence) →
      detect_frameworks P1 content js url = detect_frameworks P2 content js url) := by
  have hrun : ∀ P : List PluginFun,
      detect_frameworks P content js url =
        List.insertionSort confGE (P.filterMap (fun p =>
          match p content js url with
          | Except.error _ => none
          | Except.ok od => od)) := fun _ => rfl
  have hperm2 : (detect_frameworks P1 content js url).Perm
      (detect_frameworks P2 content js url) := by
    rw [hrun P1, hrun P2]
    exact ((List.perm_insertionSort confGE _).trans (hperm.filterMap _)).trans
      (List.perm_insertionSort confGE _).symm
  refine ⟨hperm2, ?_⟩
  intro hdist
  have hs1 : List.Sorted confGE (detect_frameworks P1 content js url) := by
    rw [hrun P1]; exact List.sorted_insertionSort confGE _
  have hs2 : List.Sorted confGE (detect_frameworks P2 content js url) := by
    rw [hrun P2]; exact List.sorted_insertionSort confGE _
  have hdist2 : (detect_frameworks P2 content js url).Pairwise
      (fun a b => a.confidence ≠ b.confidence) :=
    (List.Perm.pairwise_iff (fun h => h.symm) hperm2).mp hdist
  have hstrict : ∀ (l : List FrameworkDetection), List.Sorted confGE l →
      l.Pairwise (fun a b => a.confidence ≠ b.confidence) → List.Sorted confGT l := by
    intro l hs hd
    exact (hs.and hd).imp (fun h => lt_of_le_of_ne h.1 (fun he => h.2 he.symm))
  exact List.eq_of_perm_of_sorted hperm2 (hstrict _ hs1 hdist) (hstrict _ hs2 hdist2)

theorem C9_order_permutation_witness :
    (detect_frameworks [c9PluginA, c9PluginB] "" js0 "").Perm
        (detect_frameworks [c9PluginB, c9PluginA] "" js0 "") ∧
    ((detect_frameworks [c9PluginA, c9PluginB] "" js0 "").Pairwise
        (fun a b => a.confidence ≠ b.confidence) →
      detect_frameworks [c9PluginA, c9PluginB] "" js0 "" =
        detect_frameworks [c9PluginB, c9PluginA] "" js0 "") :=
  C9_order_permutation [c9PluginA, c9PluginB] [c9PluginB, c9PluginA] "" js0 ""
    (List.Perm.swap c9PluginB c9PluginA [])

/-! ### Scan results and merge (src/models/scan_result.py) -/

/-- Embeds the `ScanStatus` enum. -/
inductive ScanStatus
  | pending
  | running
  | completed
  | failed
deriving DecidableEq

/-- A Python dict with string keys, as the partial function it denotes. -/
def PyDict (v : Type) : Type := String → Option v

/-- Embeds `d.update(m)`: keys of `m` win. -/
def dictUpdate {v : Type} (d m : PyDict v) : PyDict v :=
  fun k => match m k with
    | some x => some x
    | none => d k

/-- The empty dict (also what `data.get(key, {})` yields for a missing
key). -/
def emptyDict {v : Type} : PyDict v := fun _ => none

lemma dictUpdate_empty {v : Type} (d : PyDict v) : dictUpdate d emptyDict = d :=
  funext fun _ => rfl

/-- The payload entries `merge_results` reads out of an outcome's `data`
dict, each as `data.get(key, default)` delivers it (a missing list key is
the empty list, a missing dict key the empty dict). -/
structure EnumData where
  emails : List String
  urls : List String
  endpoints : List String
  keywords : List String
  sourcemap_matches : List String
  js_paths : List String
  subdomains : List String
  dns_records : PyDict (List String)
  historical_dns : PyDict (List String)
  whois_data : PyDict String
  domain_info : PyDict String
  ip_addresses : List String
  virtual_hosts : List String

/-- The all-empty payload. -/
def emptyEnumData : EnumData :=
  ⟨[], [], [], [], [], [], [], emptyDict, emptyDict, emptyDict, emptyDict, [], []⟩

/-- Embeds the `EnumerationResult` dataclass (timestamps as `ℕ`). -/
structure EnumerationResult where
  enumerator_name : String
  target : String
  timestamp : Nat
  data : EnumData
  errors : List String

/-- Embeds the `ScanResults` dataclass. -/
@[ext]
structure ScanResults where
  scan_id : String
  target : String
  start_time : Nat
  end_time : Option Nat
  status : ScanStatus
  emails : Finset String
  urls : Finset String
  endpoints : Finset String
  keywords : Finset String
  sourcemap_matches : Finset String
  js_paths : Finset String
  subdomains : Finset String
  dns_records : PyDict (List String)
  historical_dns : PyDict (List String)
  whois_data : PyDict String
  domain_info : PyDict String
  ip_addresses : Finset String
  virtual_hosts : Finset String
  detected_services : PyDict (List String)
  enumeration_results : List EnumerationResult

/-- Embeds `ScanResults._merge_web_results` (`set.update` = union). -/
def merge_web (s : ScanResults) (d : EnumData) : ScanResults :=
  { s with
    emails := s.emails ∪ d.emails.toFinset
    urls := s.urls ∪ d.urls.toFinset
    endpoints := s.endpoints ∪ d.endpoints.toFinset
    keywords := s.keywords ∪ d.keywords.toFinset
    sourcemap_matches := s.sourcemap_matches ∪ d.sourcemap_matches.toFinset
    js_paths := s.js_paths ∪ d.js_paths.toFinset }

/-- Embeds `ScanResults._merge_dns_results`. -/
def merge_dns (s : ScanResults) (d : EnumData) : ScanResults :=
  { s with
    subdomains := s.subdomains ∪ d.subdomains.toFinset
    dns_records := dictUpdate s.dns_records d.dns_records }

/-- Embeds `ScanResults._merge_security_trails_results`. -/
def merge_security_trails (s : ScanResults) (d : EnumData) : ScanResults :=
  { s with
    subdomains := s.subdomains ∪ d.subdomains.toFinset
    historical_dns := dictUpdate s.historical_dns d.historical_dns
    whois_data := dictUpdate s.whois_data d.whois_data
    domain_info := dictUpdate s.domain_info d.domain_info
    ip_addresses := s.ip_addresses ∪ d.ip_addresses.toFinset
    virtual_hosts := s.virtual_hosts ∪ d.virtual_hosts.toFinset }

/-- One iteration of the `merge_results` loop: dispatch on the recorded
strategy name; unknown names are ignored. -/
def mergeOne (s : ScanResults) (r : EnumerationResult) : ScanResults :=
  if r.enumerator_name = "web_scanner" then merge_web s r.data
  else if r.enumerator_name = "dns_enumeration" then merge_dns s r.data
  else if r.enumerator_name = "security_trails" then merge_security_trails s r.data
  else s

/-- Embeds `ScanResults.merge_results`. -/
def merge_results (s : ScanResults) : ScanResults :=
  s.enumeration_results.foldl mergeOne s

/-! #### Generic fold lemmas for the idempotence of `merge`. -/

lemma foldl_union_absorb {β : Type} (u : β → Finset String) :
    ∀ (l : List β) (a : Finset String), (∀ x ∈ l, u x ⊆ a) →
      l.foldl (fun acc x => acc ∪ u x) a = a := by
  intro l
  induction l with
  | nil => intro a _; rfl
  | cons x rest ih =>
    intro a h
    simp only [List.foldl_cons]
    rw [Finset.union_eq_left.mpr (h x (by simp))]
    exact ih a (fun y hy => h y (by simp [hy]))

lemma subset_foldl_union {β : Type} (u : β → Finset String) :
    ∀ (l : List β) (a : Finset String),
      a ⊆ l.foldl (fun acc x => acc ∪ u x) a ∧
      ∀ x ∈ l, u x ⊆ l.foldl (fun acc x => acc ∪ u x) a := by
  intro l
  induction l with
  | nil => intro a; exact ⟨subset_rfl, by simp⟩
  | cons x rest ih =>
    intro a
    simp only [List.foldl_cons]
    constructor
    · exact Finset.subset_union_left.trans (ih (a ∪ u x)).1
    · intro y hy
      rcases List.mem_cons.mp hy with h | h
      · rw [h]; exact Finset.subset_union_right.trans (ih (a ∪ u x)).1
      · exact (ih (a ∪ u x)).2 y h

lemma foldl_union_idem {β : Type} (u : β → Finset String) (l : List β) (a : Finset String) :
    l.foldl (fun acc x => acc ∪ u x) (l.foldl (fun acc x => acc ∪ u x) a) =
      l.foldl (fun acc x => acc ∪ u x) a :=
  foldl_union_absorb u l _ (fun x hx => (subset_foldl_union u l a).2 x hx)

/-- The pointwise combination `dictUpdate` performs at one key. -/
def pickOpt {v : Type} (m o : Option v) : Option v :=
  match m with
  | some x => some x
  | none => o

lemma foldl_dictUpdate_apply {β v : Type} (f : β → PyDict v) :
    ∀ (l : List β) (d : PyDict v) (k : String),
      (l.foldl (fun acc x => dictUpdate acc (f x)) d) k =
        l.foldl (fun o x => pickOpt (f x k) o) (d k) := by
  intro l
  induction l with
  | nil => intro d k; rfl
  | cons x rest ih =>
    intro d k
    simp only [List.foldl_cons]
    rw [ih]
    rfl

lemma foldl_pick_shift {β v : Type} (g : β → Option v) :
    ∀ (l : List β) (a : Option v),
      l.foldl (fun o x => pickOpt (g x) o) a =
        pickOpt (l.foldl (fun o x => pickOpt (g x) o) none) a := by
  intro l
  induction l with
  | nil => intro a; rfl
  | cons x rest ih =>
    intro a
    simp only [List.foldl_cons]
    rw [ih (pickOpt (g x) a), ih (pickOpt (g x) none)]
    cases h : rest.foldl (fun o x => pickOpt (g x) o) none with
    | some y => rfl
    | none =>
      simp only [pickOpt]
      cases g x <;> rfl

lemma foldl_dictUpdate_idem {β v : Type} (f : β → PyDict v) (l : List β) (d : PyDict v) :
    l.foldl (fun acc x => dictUpdate acc (f x))
        (l.foldl (fun acc x => dictUpdate acc (f x)) d) =
      l.foldl (fun acc x => dictUpdate acc (f x)) d := by
  funext k
  rw [foldl_dictUpdate_apply, foldl_dictUpdate_apply,
    foldl_pick_shift (fun x => f x k) l
      (l.foldl (fun o x => pickOpt (f x k) o) (d k)),
    foldl_pick_shift (fun x => f x k) l (d k)]
  cases l.foldl (fun o x => pickOpt (f x k) o) none with
  | some y => rfl
  | none => rfl

/-! #### Projecting the merge fold onto each consolidated field. -/

lemma merge_fold_untouched {α : Type} (f : ScanResults → α)
    (hf : ∀ s r, f (mergeOne s r) = f s) :
    ∀ (l : List EnumerationResult) (s : ScanResults), f (l.foldl mergeOne s) = f s := by
  intro l
  induction l with
  | nil => intro s; rfl
  | cons r rest ih =>
    intro s
    simp only [List.foldl_cons]
    rw [ih, hf]

lemma merge_fold_union (f : ScanResults → Finset String)
    (u : EnumerationResult → Finset String)
    (hf : ∀ s r, f (mergeOne s r) = f s ∪ u r) :
    ∀ (l : List EnumerationResult) (s : ScanResults),
      f (l.foldl mergeOne s) = l.foldl (fun acc x => acc ∪ u x) (f s) := by
  intro l
  induction l with
  | nil => intro s; rfl
  | cons r rest ih =>
    intro s
    simp only [List.foldl_cons]
    rw [ih, hf]

lemma merge_fold_dict {v : Type} (f : ScanResults → PyDict v)
    (u : EnumerationResult → PyDict v)
    (hf : ∀ s r, f (mergeOne s r) = dictUpdate (f s) (u r)) :
    ∀ (l : List EnumerationResult) (s : ScanResults),
      f (l.foldl mergeOne s) = l.foldl (fun acc x => dictUpdate acc (u x)) (f s) := by
  intro l
  induction l with
  | nil => intro s; rfl
  | cons r rest ih =>
    intro s
    simp only [List.foldl_cons]
    rw [ih, hf]

/-- The set contribution of one outcome to a web-scanner field. -/
def webData (u : EnumData → List String) (r : EnumerationResult) : Finset String :=
  if r.enumerator_name = "web_scanner" then (u r.data).toFinset else ∅

/-- The set contribution of one outcome to `subdomains` (populated by both
the DNS and the SecurityTrails strategies). -/
def subdomainsData (r : EnumerationResult) : Finset String :=
  if r.enumerator_name = "web_scanner" then ∅
  else if r.enumerator_name = "dns_enumeration" then r.data.subdomains.toFinset
  else if r.enumerator_name = "security_trails" then r.data.subdomains.toFinset
  else ∅

/-- The set contribution of one outcome to a SecurityTrails set field. -/
def stData (u : EnumData → List String) (r : EnumerationResult) : Finset String :=
  if r.enumerator_name = "security_trails" then (u r.data).toFinset else ∅

/-- The dict contribution of one outcome to `dns_records`. -/
def dnsDictData (r : EnumerationResult) : PyDict (List String) :=
  if r.enumerator_name = "dns_enumeration" then r.data.dns_records else emptyDict

/-- The dict contribution of one outcome to a SecurityTrails dict field. -/
def stDictData {v : Type} (u : EnumData → PyDict v) (r : EnumerationResult) : PyDict v :=
  if r.enumerator_name = "security_trails" then u r.data else emptyDict

/-- C2: `merge_results` is idempotent — running the consolidation twice
over the same recorded outcome sequence gives exactly the state reached by
running it once (every consolidated field and every other field agree). -/
theorem C2_merge_idempotent (s : ScanResults) :
    merge_results (merge_results s) = merge_results s := by
  have henum : ∀ l t, ((l : List EnumerationResult).foldl mergeOne t).enumeration_results =
      t.enumeration_results :=
    merge_fold_untouched _ (fun s r => by
      unfold mergeOne merge_web merge_dns merge_security_trails
      split_ifs <;> rfl)
  show (merge_results s).enumeration_results.foldl mergeOne (merge_results s) = merge_results s
  unfold merge_results
  rw [henum]
  generalize s.enumeration_results = l
  apply ScanResults.ext
  case scan_id => exact merge_fold_untouched _ (fun s r => by
    unfold mergeOne merge_web merge_dns merge_security_trails; split_ifs <;> rfl) l _
  case target => exact merge_fold_untouched _ (fun s r => by
    unfold mergeOne merge_web merge_dns merge_security_trails; split_ifs <;> rfl) l _
  case start_time => exact merge_fold_untouched _ (fun s r => by
    unfold mergeOne merge_web merge_dns merge_security_trails; split_ifs <;> rfl) l _
  case end_time => exact merge_fold_untouched _ (fun s r => by
    unfold mergeOne merge_web merge_dns merge_security_trails; split_ifs <;> rfl) l _
  case status => exact merge_fold_untouched _ (fun s r => by
    unfold mergeOne merge_web merge_dns merge_security_trails; split_ifs <;> rfl) l _
  case detected_services => exact merge_fold_untouched _ (fun s r => by
    unfold mergeOne merge_web merge_dns merge_security_trails; split_ifs <;> rfl) l _
  case enumeration_results => exact merge_fold_untouched _ (fun s r => by
    unfold mergeOne merge_web merge_dns merge_security_trails; split_ifs <;> rfl) l _
  case emails =>
    have h := merge_fold_union (fun t => t.emails) (webData (fun d => d.emails))
      (fun s r => by
        unfold mergeOne merge_web merge_dns merge_security_trails webData
        split_ifs <;> simp_all) l
    rw [h, h, foldl_union_idem]
  case urls =>
    have h := merge_fold_union (fun t => t.urls) (webData (fun d => d.urls))
      (fun s r => by
        unfold mergeOne merge_web merge_dns merge_security_trails webData
        split_ifs <;> simp_all) l
    rw [h, h, foldl_union_idem]
  case endpoints =>
    have h := merge_fold_union (fun t => t.endpoints) (webData (fun d => d.endpoints))
      (fun s r => by
        unfold mergeOne merge_web merge_dns merge_security_trails webData
        split_ifs <;> simp_all) l
    rw [h, h, foldl_union_idem]
  case keywords =>
    have h := merge_fold_union (fun t => t.keywords) (webData (fun d => d.keywords))
      (fun s r => by
        unfold mergeOne merge_web merge_dns merge_security_trails webData
        split_ifs <;> simp_all) l
    rw [h, h, foldl_union_idem]
  case sourcemap_matches =>
    have h := merge_fold_union (fun t => t.sourcemap_matches)
      (webData (fun d => d.sourcemap_matches))
      (fun s r => by
        unfold mergeOne merge_web merge_dns merge_security_trails webData
        split_ifs <;> simp_all) l
    rw [h, h, foldl_union_idem]
  case js_paths =>
    have h := merge_fold_union (fun t => t.js_paths) (webData (fun d => d.js_paths))
      (fun s r => by
        unfold mergeOne merge_web merge_dns merge_security_trails webData
        split_ifs <;> simp_all) l
    rw [h, h, foldl_union_idem]
  case subdomains =>
    have h := merge_fold_union (fun t => t.subdomains) subdomainsData
      (fun s r => by
        unfold mergeOne merge_web merge_dns merge_security_trails subdomainsData
        split_ifs <;> simp_all) l
    rw [h, h, foldl_union_idem]
  case ip_addresses =>
    have h := merge_fold_union (fun t => t.ip_addresses) (stData (fun d => d.ip_addresses))
      (fun s r => by
        unfold mergeOne merge_web merge_dns merge_security_trails stData
        split_ifs <;> simp_all) l
    rw [h, h, foldl_union_idem]
  case virtual_hosts =>
    have h := merge_fold_union (fun t => t.virtual_hosts) (stData (fun d => d.virtual_hosts))
      (fun s r => by
        unfold mergeOne merge_web merge_dns merge_security_trails stData
        split_ifs <;> simp_all) l
    rw [h, h, foldl_union_idem]
  case dns_records =>
    have h := merge_fold_dict (fun t => t.dns_records) dnsDictData
      (fun s r => by
        unfold mergeOne merge_web merge_dns merge_security_trails dnsDictData
        split_ifs <;> simp_all [dictUpdate_empty]) l
    rw [h, h, foldl_dictUpdate_idem]
  case historical_dns =>
    have h := merge_fold_dict (fun t => t.historical_dns)
      (stDictData (fun d => d.historical_dns))
      (fun s r => by
        unfold mergeOne merge_web merge_dns merge_security_trails stDictData
        split_ifs <;> simp_all [dictUpdate_empty]) l
    rw [h, h, foldl_dictUpdate_idem]
  case whois_data =>
    have h := merge_fold_dict (fun t => t.whois_data) (stDictData (fun d => d.whois_data))
      (fun s r => by
        unfold mergeOne merge_web merge_dns merge_security_trails stDictData
        split_ifs <;> simp_all [dictUpdate_empty]) l
    rw [h, h, foldl_dictUpdate_idem]
  case domain_info =>
    have h := merge_fold_dict (fun t => t.domain_info) (stDictData (fun d => d.domain_info))
      (fun s r => by
        unfold mergeOne merge_web merge_dns merge_security_trails stDictData
        split_ifs <;> simp_all [dictUpdate_empty]) l
    rw [h, h, foldl_dictUpdate_idem]

/-! ### The orchestrator (src/core/analyzer.py, `SiteAnalyzer.analyze`) -/

/-- An enumeration strategy as the orchestrator calls it: `enumerate` may
raise (`Except.error`). -/
structure Enumerator where
  name : String
  run : String → Except String EnumerationResult

/-- The enumerator loop of `analyze`: each strategy is wrapped in its own
try/except, so a raising strategy contributes no outcome and the loop
continues. -/
def runEnumerators (enums : List Enumerator) (target : String) : List EnumerationResult :=
  enums.filterMap (fun e => match e.run target with
    | Except.ok r => some r
    | Except.error _ => none)

/-- A (status, end_time) snapshot of the record, taken at creation and after
each terminal status/end_time assignment pair of `analyze`. -/
structure Snap where
  status : ScanStatus
  end_time : Option Nat
deriving DecidableEq

/-- What one `analyze` call leaves behind: the record, the snapshot trace,
and whether the call raised to its caller. -/
structure AnalyzeOutcome where
  record : ScanResults
  snaps : List Snap
  raised : Bool

/-- The record as `analyze` constructs it (status Running at creation). -/
def initialRecord (scan_id target : String) (t0 : Nat) : ScanResults :=
  ⟨scan_id, target, t0, none, ScanStatus.running,
   ∅, ∅, ∅, ∅, ∅, ∅, ∅, emptyDict, emptyDict, emptyDict, emptyDict, ∅, ∅, emptyDict, []⟩

/-- Embeds `SiteAnalyzer.analyze`.  `save` is the optional storage
backend's `save`, which may raise; `t0 t1 t2` are the successive
`datetime.now()` readings.  On the happy path the record is merged, marked
Completed with `end_time := t1`, and saved.  If that save raises, control
reaches the `except` block, which re-marks the record Failed, overwrites
`end_time` with `t2`, attempts a best-effort save and re-raises (the call
raises whether or not that second save succeeds, so the record is the same
either way). -/
def completedRecord (enums : List Enumerator) (target scan_id : String)
    (t0 t1 : Nat) : ScanResults :=
  { merge_results { initialRecord scan_id target t0 with
      enumeration_results := runEnumerators enums target } with
    status := ScanStatus.completed, end_time := some t1 }

def analyze (enums : List Enumerator) (save : Option (ScanResults → Except String Unit))
    (target scan_id : String) (t0 t1 t2 : Nat) : AnalyzeOutcome :=
  let completed := completedRecord enums target scan_id t0 t1
  match save with
  | none =>
    ⟨completed, [⟨ScanStatus.running, none⟩, ⟨ScanStatus.completed, some t1⟩], false⟩
  | some sv =>
    match sv completed with
    | Except.ok _ =>
      ⟨completed, [⟨ScanStatus.running, none⟩, ⟨ScanStatus.completed, some t1⟩], false⟩
    | Except.error _ =>
      ⟨{ completed with status := ScanStatus.failed, end_time := some t2 },
       [⟨ScanStatus.running, none⟩, ⟨ScanStatus.completed, some t1⟩,
        ⟨ScanStatus.failed, some t2⟩], true⟩

lemma analyze_save_none (enums : List Enumerator) (target scan_id : String)
    (t0 t1 t2 : Nat) :
    analyze enums none target scan_id t0 t1 t2 =
      ⟨completedRecord enums target scan_id t0 t1,
       [⟨ScanStatus.running, none⟩, ⟨ScanStatus.completed, some t1⟩], false⟩ := rfl

lemma analyze_save_ok (enums : List Enumerator) (sv : ScanResults → Except String Unit)
    (target scan_id : String) (t0 t1 t2 : Nat) (u : Unit)
    (hsv : sv (completedRecord enums target scan_id t0 t1) = Except.ok u) :
    analyze enums (some sv) target scan_id t0 t1 t2 =
      ⟨completedRecord enums target scan_id t0 t1,
       [⟨ScanStatus.running, none⟩, ⟨ScanStatus.completed, some t1⟩], false⟩ := by
  simp only [analyze]
  rw [hsv]

lemma analyze_save_error (enums : List Enumerator) (sv : ScanResults → Except String Unit)
    (target scan_id : String) (t0 t1 t2 : Nat) (e : String)
    (hsv : sv (completedRecord enums target scan_id t0 t1) = Except.error e) :
    analyze enums (some sv) target scan_id t0 t1 t2 =
      ⟨{ completedRecord enums target scan_id t0 t1 with
           status := ScanStatus.failed, end_time := some t2 },
       [⟨ScanStatus.running, none⟩, ⟨ScanStatus.completed, some t1⟩,
        ⟨ScanStatus.failed, some t2⟩], true⟩ := by
  simp only [analyze]
  rw [hsv]

/-- One legal forward transition of the scan status. -/
def statusStepOK (a b : ScanStatus) : Prop :=
  a = b ∨ (a = ScanStatus.pending ∧ b = ScanStatus.running) ∨
    (a = ScanStatus.running ∧ (b = ScanStatus.completed ∨ b = ScanStatus.failed))

instance : DecidableRel statusStepOK :=
  fun a b => by unfold statusStepOK; infer_instance

/-- The invariant package claim C5 asserts of an execution trace: statuses
only move forward (so a terminal status is never left), `end_time` is null
exactly while Pending or Running, and `end_time` never changes once set
(together with the second conjunct: it is assigned exactly once, at the
terminal transition). -/
def scanLifecycleOK (snaps : List Snap) : Prop :=
  List.Chain' (fun a b => statusStepOK a.status b.status) snaps ∧
  (∀ p ∈ snaps, p.end_time = none ↔
    (p.status = ScanStatus.pending ∨ p.status = ScanStatus.running)) ∧
  List.Chain' (fun a b => a.end_time ≠ none → b.end_time = a.end_time) snaps

/-- A persistence save that always raises. -/
def failingSave : ScanResults → Except String Unit := fun _ => Except.error "disk full"

/-- C5 counterexample: when the save raises after the scan has completed,
the `except` block moves the record from the terminal status Completed to
Failed and assigns `end_time` a second time, violating the lifecycle
invariants as claimed over all executions. -/
theorem C5_counterexample :
    ¬ scanLifecycleOK (analyze [] (some failingSave) "t" "id" 0 1 2).snaps := by
  have hsnaps : (analyze [] (some failingSave) "t" "id" 0 1 2).snaps =
      [⟨ScanStatus.running, none⟩, ⟨ScanStatus.completed, some 1⟩,
       ⟨ScanStatus.failed, some 2⟩] := rfl
  rw [hsnaps]
  intro h
  have hstep := List.chain'_cons.mp (List.chain'_cons.mp h.1).2
  rcases hstep.1 with h' | ⟨h', -⟩ | ⟨h', -⟩ <;> exact absurd h' (by simp)

/-- C5 amended: the lifecycle invariants hold for every execution of
`analyze` that does not raise — i.e. whenever the persistence save (if any)
succeeds; the executions where the save raises after completion behave as
the counterexample shows. -/
theorem C5_lifecycle (enums : List Enumerator)
    (save : Option (ScanResults → Except String Unit)) (target scan_id : String)
    (t0 t1 t2 : Nat)
    (hok : (analyze enums save target scan_id t0 t1 t2).raised = false) :
    scanLifecycleOK (analyze enums save target scan_id t0 t1 t2).snaps := by
  have htwo : ∀ t : Nat, scanLifecycleOK
      [⟨ScanStatus.running, none⟩, ⟨ScanStatus.completed, some t⟩] := by
    intro t
    refine ⟨?_, ?_, ?_⟩
    · exact List.chain'_cons.mpr ⟨Or.inr (Or.inr ⟨rfl, Or.inl rfl⟩), List.chain'_singleton _⟩
    · intro p hp
      rcases List.mem_cons.mp hp with h | h
      · subst h; simp
      · rw [List.mem_singleton] at h; subst h; simp
    · exact List.chain'_cons.mpr ⟨fun h => absurd rfl h, List.chain'_singleton _⟩
  cases save with
  | none => rw [analyze_save_none]; exact htwo t1
  | some sv =>
    cases hsv : sv (completedRecord enums target scan_id t0 t1) with
    | ok u =>
      rw [analyze_save_ok enums sv target scan_id t0 t1 t2 u hsv]
      exact htwo t1
    | error e =>
      rw [analyze_save_error enums sv target scan_id t0 t1 t2 e hsv] at hok
      exact absurd hok (by simp)

theorem C5_lifecycle_witness :
    scanLifecycleOK (analyze [] none "t" "id" 0 1 2).snaps :=
  C5_lifecycle [] none "t" "id" 0 1 2 rfl

/-- C4: in any non-raising run where one strategy records errors in its
outcome while another returns a clean outcome, `analyze` still finishes
Completed; both outcomes are recorded exactly as returned (the failing one
keeps its non-empty error list and partial data, the succeeding one its
empty error list), and when the succeeding strategy is the web scanner its
emails and urls end up in the consolidated sets. -/
theorem C4_partial_failure_completes (enums : List Enumerator)
    (save : Option (ScanResults → Except String Unit)) (target scan_id : String)
    (t0 t1 t2 : Nat) (ef es : Enumerator) (rf rs : EnumerationResult)
    (hef : ef ∈ enums) (hes : es ∈ enums)
    (hrf : ef.run target = Except.ok rf) (hrfErr : rf.errors ≠ [])
    (hrs : es.run target = Except.ok rs) (hrsErr : rs.errors = [])
    (hok : (analyze enums save target scan_id t0 t1 t2).raised = false) :
    (analyze enums save target scan_id t0 t1 t2).record.status = ScanStatus.completed ∧
    rf ∈ (analyze enums save target scan_id t0 t1 t2).record.enumeration_results ∧
    rs ∈ (analyze enums save target scan_id t0 t1 t2).record.enumeration_results ∧
    (rs.enumerator_name = "web_scanner" →
      rs.data.emails.toFinset ⊆ (analyze enums save target scan_id t0 t1 t2).record.emails ∧
      rs.data.urls.toFinset ⊆ (analyze enums save target scan_id t0 t1 t2).record.urls) := by
  have hrec : (analyze enums save target scan_id t0 t1 t2).record =
      completedRecord enums target scan_id t0 t1 := by
    cases save with
    | none => rw [analyze_save_none]
    | some sv =>
      cases hsv : sv (completedRecord enums target scan_id t0 t1) with
      | ok u => rw [analyze_save_ok enums sv target scan_id t0 t1 t2 u hsv]
      | error e =>
        rw [analyze_save_error enums sv target scan_id t0 t1 t2 e hsv] at hok
        exact absurd hok (by simp)
  have hmem : ∀ (r' : EnumerationResult) (e' : Enumerator), e' ∈ enums →
      e'.run target = Except.ok r' → r' ∈ runEnumerators enums target := by
    intro r' e' he' hrun
    exact List.mem_filterMap.mpr ⟨e', he', by rw [hrun]⟩
  have henum : (completedRecord enums target scan_id t0 t1).enumeration_results =
      runEnumerators enums target :=
    merge_fold_untouched (fun t => t.enumeration_results) (fun s r => by
        unfold mergeOne merge_web merge_dns merge_security_trails; split_ifs <;> rfl)
      (runEnumerators enums target)
      { initialRecord scan_id target t0 with
        enumeration_results := runEnumerators enums target }
  rw [hrec]
  refine ⟨rfl, ?_, ?_, ?_⟩
  · rw [henum]; exact hmem rf ef hef hrf
  · rw [henum]; exact hmem rs es hes hrs
  · intro hname
    constructor
    · have hcomm : ∀ (s : ScanResults) (r : EnumerationResult),
          (mergeOne s r).emails = s.emails ∪ webData (fun d => d.emails) r := fun s r => by
        unfold mergeOne merge_web merge_dns merge_security_trails webData
        split_ifs <;> simp_all
      have hq : (completedRecord enums target scan_id t0 t1).emails =
          (runEnumerators enums target).foldl
            (fun acc x => acc ∪ webData (fun d => d.emails) x)
            ({ initialRecord scan_id target t0 with
               enumeration_results := runEnumerators enums target } : ScanResults).emails :=
        merge_fold_union _ _ hcomm _ _
      have hset : webData (fun d => d.emails) rs = rs.data.emails.toFinset := by
        unfold webData; rw [hname]; simp
      rw [hq, ← hset]
      exact (subset_foldl_union _ _ _).2 rs (hmem rs es hes hrs)
    · have hcomm : ∀ (s : ScanResults) (r : EnumerationResult),
          (mergeOne s r).urls = s.urls ∪ webData (fun d => d.urls) r := fun s r => by
        unfold mergeOne merge_web merge_dns merge_security_trails webData
        split_ifs <;> simp_all
      have hq : (completedRecord enums target scan_id t0 t1).urls =
          (runEnumerators enums target).foldl
            (fun acc x => acc ∪ webData (fun d => d.urls) x)
            ({ initialRecord scan_id target t0 with
               enumeration_results := runEnumerators enums target } : ScanResults).urls :=
        merge_fold_union _ _ hcomm _ _
      have hset : webData (fun d => d.urls) rs = rs.data.urls.toFinset := by
        unfold webData; rw [hname]; simp
      rw [hq, ← hset]
      exact (subset_foldl_union _ _ _).2 rs (hmem rs es hes hrs)

/-- The spec scenario's payload for the succeeding web-scanner strategy. -/
def c4WebData : EnumData :=
  { emptyEnumData with emails := ["a@b.com"], urls := ["https://example.com"] }

/-- The failing passive-DNS outcome: non-empty error list, partial data. -/
def c4FailResult : EnumerationResult :=
  ⟨"dns_enumeration", "t", 0, emptyEnumData,
   ["Failed to get basic DNS records: network error"]⟩

/-- The succeeding web-scanner outcome: empty error list. -/
def c4OkResult : EnumerationResult := ⟨"web_scanner", "t", 1, c4WebData, []⟩

def c4FailEnum : Enumerator := ⟨"dns_enumeration", fun _ => Except.ok c4FailResult⟩

def c4OkEnum : Enumerator := ⟨"web_scanner", fun _ => Except.ok c4OkResult⟩

theorem C4_partial_failure_completes_witness :
    (analyze [c4FailEnum, c4OkEnum] none "t" "id" 0 1 2).record.status =
        ScanStatus.completed ∧
    c4FailResult ∈
      (analyze [c4FailEnum, c4OkEnum] none "t" "id" 0 1 2).record.enumeration_results ∧
    c4OkResult ∈
      (analyze [c4FailEnum, c4OkEnum] none "t" "id" 0 1 2).record.enumeration_results ∧
    (c4OkResult.enumerator_name = "web_scanner" →
      c4OkResult.data.emails.toFinset ⊆
        (analyze [c4FailEnum, c4OkEnum] none "t" "id" 0 1 2).record.emails ∧
      c4OkResult.data.urls.toFinset ⊆
        (analyze [c4FailEnum, c4OkEnum] none "t" "id" 0 1 2).record.urls) :=
  C4_partial_failure_completes [c4FailEnum, c4OkEnum] none "t" "id" 0 1 2
    c4FailEnum c4OkEnum c4FailResult c4OkResult
    (List.mem_cons_self _ _) (List.mem_cons_of_mem _ (List.mem_cons_self _ _))
    rfl (by simp [c4FailResult]) rfl rfl rfl

end SiteAnalyzer
